import Mathlib

/-!
Verification development for the glbasics repository (src/src/main.cpp), an
OpenGL triangle demo.  The OpenGL driver is modelled as an abstract oracle
(GLEnv) deciding compile and link success and supplying info-log text, and
the GL client state touched by the program is a small record (GLState).
Floating-point values are idealised as rationals (for the input loop) and
reals (for the spec-modelled transform composer).
-/

/-- Shader stage selector, mirroring the GLenum shaderType argument
(GL_VERTEX_SHADER or GL_FRAGMENT_SHADER) of compileShader. -/
inductive ShaderType
  | vertex
  | fragment
deriving DecidableEq, Repr

/-- The OpenGL driver as an oracle: whether a given source compiles for a
given stage, whether linking two stage handles succeeds, and the full
(untruncated) info-log text the driver would report in each case. -/
structure GLEnv where
  compileOk : String → ShaderType → Bool
  shaderInfoLog : String → ShaderType → String
  linkOk : Nat → Nat → Bool
  programInfoLog : Nat → Nat → String

/-- The slice of GL client state the program manipulates: a fresh-handle
counter, the std::cerr output channel (most recent line first), the
program-shader attachments made, the programs on which a link was
attempted, and the shader handles passed to glDeleteShader. -/
structure GLState where
  nextId : Nat
  log : List String
  attached : List (Nat × Nat)
  linked : List Nat
  deletedShaders : List Nat
deriving DecidableEq, Repr

/-- glGetShaderInfoLog / glGetProgramInfoLog with a buffer of bufSize
bytes: the returned text holds at most bufSize - 1 characters, one byte
being reserved for the terminator. -/
def glInfoLogBuffer (bufSize : Nat) (full : String) : String :=
  full.take (bufSize - 1)

/-- Embedding of compileShader (main.cpp lines 36-96): create a shader
handle, attach the source, compile, query GL_COMPILE_STATUS; on failure
fetch the info log into a 512-byte buffer and print it to std::cerr.  The
handle is returned unconditionally. -/
def compileShader (env : GLEnv) (source : String) (shaderType : ShaderType)
    (st : GLState) : Nat × GLState :=
  let shader := st.nextId
  let st1 : GLState := { st with nextId := st.nextId + 1 }
  let pass := env.compileOk source shaderType
  let st2 : GLState :=
    if pass then st1
    else { st1 with
      log := ("Shader compilation failed:\n"
        ++ glInfoLogBuffer 512 (env.shaderInfoLog source shaderType)
        ++ "\n") :: st1.log }
  (shader, st2)

/-- Embedding of linkProgram (main.cpp lines 113-164): create a program,
attach both stage handles, attempt the link, query GL_LINK_STATUS, on
failure fetch the program info log into a 512-byte buffer and print it,
then delete both stage handles and return the program handle
unconditionally. -/
def linkProgram (env : GLEnv) (vertexShader fragmentShader : Nat)
    (st : GLState) : Nat × GLState :=
  let program := st.nextId
  let st1 : GLState := { st with nextId := st.nextId + 1 }
  let st2 : GLState := { st1 with
    attached := (program, fragmentShader) :: (program, vertexShader) :: st1.attached }
  let st3 : GLState := { st2 with linked := program :: st2.linked }
  let success := env.linkOk vertexShader fragmentShader
  let st4 : GLState :=
    if success then st3
    else { st3 with
      log := ("Shader linking failed:\n"
        ++ glInfoLogBuffer 512 (env.programInfoLog vertexShader fragmentShader)
        ++ "\n") :: st3.log }
  let st5 : GLState := { st4 with
    deletedShaders := fragmentShader :: vertexShader :: st4.deletedShaders }
  (program, st5)

/-- Embedding of loadShaderSource (main.cpp lines 8-19) over an abstract
filesystem: a readable file yields its full content and no error output;
an unopenable file yields the empty string and one std::cerr line. -/
def loadShaderSource (fs : String → Option String) (filePath : String) :
    String × List String :=
  match fs filePath with
  | none =>
      ("", ["Failed to open shader file: " ++ filePath ++ ". Load aborting...\n"])
  | some content => (content, [])

/-- The four arrow keys polled each frame in the render loop. -/
structure Keys where
  left : Bool
  right : Bool
  up : Bool
  down : Bool
deriving DecidableEq, Repr

/-- Embedding of the per-frame input-polling block of the render loop
(main.cpp lines 350-367): each held arrow key adds or subtracts the fixed
constant 0.01 on the matching offset axis, left before right and up before
down, with no dependence on elapsed time and no speed modifier. -/
def frameInput (k : Keys) (xOffset yOffset : ℚ) : ℚ × ℚ :=
  let x0 := if k.left then xOffset - 1/100 else xOffset
  let x1 := if k.right then x0 + 1/100 else x0
  let y0 := if k.up then yOffset + 1/100 else yOffset
  let y1 := if k.down then y0 - 1/100 else y0
  (x1, y1)

/-- The per-frame offset delta the spec asserts.  Modelled from the spec:
advance the corresponding offset axis by speed times elapsedSeconds, where
speed is a base unit value multiplied by 2 if a modifier key is held. -/
def specOffsetDelta (base elapsedSeconds : ℚ) (modifierHeld : Bool) : ℚ :=
  (if modifierHeld then 2 * base else base) * elapsedSeconds

/-- Round a rational to the nearest integer, ties going to the even
integer, as IEEE 754 round-to-nearest-even does on the scaled
significand. -/
def roundNearestEven (x : ℚ) : ℤ :=
  let f := ⌊x⌋
  if x - f < 1/2 then f
  else if 1/2 < x - f then f + 1
  else if f % 2 = 0 then f else f + 1

/-- Round a rational to the nearest IEEE 754 binary32 value under
round-to-nearest-even, in the normal range: the magnitude is scaled into
the 24-bit significand window [2^23, 2^24), rounded to an integer with
ties to even, and scaled back.  Exponent clamping (subnormals, overflow to
infinity) is not modelled; every value arising in the theorems below lies
well inside the normal range, where this function agrees exactly with
binary32 arithmetic. -/
def round32 (q : ℚ) : ℚ :=
  if q = 0 then 0
  else
    let e : ℤ := Int.log 2 |q| - 23
    let m : ℤ := roundNearestEven (|q| / 2 ^ e)
    (if q < 0 then -1 else 1) * (m : ℚ) * 2 ^ e

/-- Single-precision float addition: exact sum, then binary32 rounding. -/
def fadd32 (a b : ℚ) : ℚ := round32 (a + b)

/-- Single-precision float subtraction: exact difference, then binary32
rounding. -/
def fsub32 (a b : ℚ) : ℚ := round32 (a - b)

/-- The value of the C literal 0.01f: the binary32 rounding of 1/100,
namely 10737418 * 2^-30. -/
def c001 : ℚ := round32 (1/100)

/-- Embedding of the horizontal input-polling block of the render loop
(main.cpp lines 350-357) in single-precision float semantics: if the left
key is held, xOffset = xOffset - 0.01f; if the right key is held,
xOffset = xOffset + 0.01f, each operation rounding its exact result to
binary32. -/
def frameInputX32 (k : Keys) (xOffset : ℚ) : ℚ :=
  let x0 := if k.left then fsub32 xOffset c001 else xOffset
  if k.right then fadd32 x0 c001 else x0

/-- The local variables of main holding the accumulated offset
(main.cpp line 250).  They are declared without an initializer, so their
value before first assignment is indeterminate; none models that. -/
structure LoopVars where
  xOffset : Option ℚ
  yOffset : Option ℚ
deriving DecidableEq, Repr

/-- The state of the offset variables right after the declaration
float xOffset, yOffset; in main (line 250): no initializer is given. -/
def mainLoopVarsInit : LoopVars := { xOffset := none, yOffset := none }

/-- Names of the GPU resources main creates or deletes. -/
inductive GLName
  | vao
  | vbo
  | ebo
  | shaderProgram
deriving DecidableEq, Repr

/-- Buffer binding targets used by main. -/
inductive BufTarget
  | arrayBuffer
  | elementArrayBuffer
deriving DecidableEq, Repr

/-- Buffer usage hints. -/
inductive BufUsage
  | staticDraw
  | dynamicDraw
  | streamDraw
deriving DecidableEq, Repr

/-- The GL calls main issues for geometry setup and shutdown. -/
inductive GLCmd
  | genVertexArrays (n : GLName)
  | bindVertexArray (n : GLName)
  | genBuffers (n : GLName)
  | bindBuffer (t : BufTarget) (n : GLName)
  | bufferData (t : BufTarget) (u : BufUsage)
  | vertexAttribPointer (index comps stride offset : Nat)
  | enableVertexAttribArray (index : Nat)
  | deleteBuffers (n : GLName)
  | deleteVertexArrays (n : GLName)
  | deleteProgram (n : GLName)
deriving DecidableEq, Repr

/-- The geometry-setup call sequence of main (main.cpp lines 254-314), in
source order: VAO generated and bound first, then the VBO generated,
bound and uploaded with GL_STATIC_DRAW, then the EBO likewise, then
glVertexAttribPointer(0, 2, GL_FLOAT, GL_FALSE, 2*sizeof(float), 0),
then glEnableVertexAttribArray(0). -/
def setupTrace : List GLCmd :=
  [ GLCmd.genVertexArrays GLName.vao
  , GLCmd.bindVertexArray GLName.vao
  , GLCmd.genBuffers GLName.vbo
  , GLCmd.bindBuffer BufTarget.arrayBuffer GLName.vbo
  , GLCmd.bufferData BufTarget.arrayBuffer BufUsage.staticDraw
  , GLCmd.genBuffers GLName.ebo
  , GLCmd.bindBuffer BufTarget.elementArrayBuffer GLName.ebo
  , GLCmd.bufferData BufTarget.elementArrayBuffer BufUsage.staticDraw
  , GLCmd.vertexAttribPointer 0 2 8 0
  , GLCmd.enableVertexAttribArray 0 ]

/-- The shutdown call sequence of main after the render loop exits
(main.cpp lines 470-472): glDeleteBuffers on the VBO, glDeleteVertexArrays
on the VAO, glDeleteProgram on the shader program.  No call deletes the
EBO. -/
def cleanupTrace : List GLCmd :=
  [ GLCmd.deleteBuffers GLName.vbo
  , GLCmd.deleteVertexArrays GLName.vao
  , GLCmd.deleteProgram GLName.shaderProgram ]

/-- Holds exactly when a GL call is not a buffer upload with a non-static
usage hint: every bufferData must carry GL_STATIC_DRAW. -/
def staticUploadOnly (c : GLCmd) : Bool :=
  match c with
  | GLCmd.bufferData _ u => u == BufUsage.staticDraw
  | _ => true

/-- A concrete driver oracle on which every compile and every link fails,
with short fixed diagnostic texts. -/
def envReject : GLEnv :=
  { compileOk := fun _ _ => false
    shaderInfoLog := fun _ _ => "bad"
    linkOk := fun _ _ => false
    programInfoLog := fun _ _ => "undefined reference" }

/-- A concrete initial GL client state: no handles handed out yet, empty
error channel, nothing attached, linked or deleted. -/
def glStateZero : GLState :=
  { nextId := 0, log := [], attached := [], linked := [], deletedShaders := [] }

/-- Homogeneous 4x4 translation matrix by (ox, oy, 0).  Modelled from the
spec: part of the Transform Composer, which is absent from src (the
render loop in main.cpp uploads raw offsets, not a matrix). -/
def translationM (ox oy : ℝ) : Matrix (Fin 4) (Fin 4) ℝ :=
  !![1, 0, 0, ox; 0, 1, 0, oy; 0, 0, 1, 0; 0, 0, 0, 1]

/-- Homogeneous 4x4 rotation matrix by t radians about the Z axis.
Modelled from the spec: part of the Transform Composer, absent from
src. -/
noncomputable def rotationZM (t : ℝ) : Matrix (Fin 4) (Fin 4) ℝ :=
  !![Real.cos t, -Real.sin t, 0, 0;
     Real.sin t, Real.cos t, 0, 0;
     0, 0, 1, 0;
     0, 0, 0, 1]

/-- Homogeneous 4x4 uniform scale by 1.5 in X and Y.  Modelled from the
spec: part of the Transform Composer, absent from src. -/
noncomputable def scaleM : Matrix (Fin 4) (Fin 4) ℝ :=
  !![3/2, 0, 0, 0; 0, 3/2, 0, 0; 0, 0, 1, 0; 0, 0, 0, 1]

/-- Modelled from the spec: the Transform Composer, absent from src.
Starts from the identity matrix and applies, in this exact order, a
translation by (offsetX, offsetY, 0), then a rotation by elapsedSeconds
radians about Z, then, only if scaleUp is set, the uniform 1.5 scale.
Each applied operation multiplies on the left, so a point is translated
first and then rotated about the origin (the orbital motion the spec
describes for translate-then-rotate). -/
noncomputable def compose (offsetX offsetY elapsedSeconds : ℝ)
    (scaleUp : Bool) : Matrix (Fin 4) (Fin 4) ℝ :=
  let m0 : Matrix (Fin 4) (Fin 4) ℝ := 1
  let m1 := translationM offsetX offsetY * m0
  let m2 := rotationZM elapsedSeconds * m1
  if scaleUp then scaleM * m2 else m2

/-- Image of the 2D point (x, y) (homogeneous coordinates (x, y, 0, 1))
under a 4x4 transform, projected back to its X and Y coordinates. -/
noncomputable def applyPoint (M : Matrix (Fin 4) (Fin 4) ℝ) (x y : ℝ) : ℝ × ℝ :=
  (M 0 0 * x + M 0 1 * y + M 0 3, M 1 0 * x + M 1 1 * y + M 1 3)

theorem translationM_zero : translationM 0 0 = 1 := by
  ext i j
  fin_cases i <;> fin_cases j <;>
    simp [translationM, Matrix.one_apply, Matrix.vecHead, Matrix.vecTail]

theorem rotationZM_zero : rotationZM 0 = 1 := by
  ext i j
  fin_cases i <;> fin_cases j <;>
    simp [rotationZM, Matrix.one_apply, Matrix.vecHead, Matrix.vecTail]

theorem int_log2_eq (r : ℚ) (e : ℤ) (hr : 0 < r)
    (h1 : (2:ℚ) ^ e ≤ r) (h2 : r < (2:ℚ) ^ (e+1)) : Int.log 2 r = e := by
  have hb : 1 < (2:ℕ) := by norm_num
  have hle : e ≤ Int.log 2 r :=
    (Int.zpow_le_iff_le_log hb hr).mp (by exact_mod_cast h1)
  have hlt : Int.log 2 r < e + 1 :=
    (Int.lt_zpow_iff_log_lt hb hr).mp (by exact_mod_cast h2)
  omega

theorem roundNearestEven_int (n : ℤ) : roundNearestEven (n:ℚ) = n := by
  simp [roundNearestEven, Int.floor_intCast]

theorem roundNearestEven_floor_lt (x : ℚ) (f : ℤ)
    (hf : ⌊x⌋ = f) (hr : x - f < 1/2) : roundNearestEven x = f := by
  simp only [roundNearestEven]
  rw [hf, if_pos hr]

theorem round32_eval_pos (q : ℚ) (e m : ℤ) (hq : 0 < q)
    (h1 : (2:ℚ) ^ (e+23) ≤ q) (h2 : q < (2:ℚ) ^ (e+23+1))
    (hm : roundNearestEven (q / 2 ^ e) = m) :
    round32 q = (m : ℚ) * 2 ^ e := by
  have hlog : Int.log 2 q = e + 23 := int_log2_eq q (e+23) hq h1 h2
  have he : e + 23 - 23 = e := by ring
  simp only [round32, abs_of_pos hq, hlog,
    if_neg hq.ne', if_neg (not_lt.mpr hq.le)]
  rw [he, hm]
  ring

theorem round32_eval_neg (q : ℚ) (e m : ℤ) (hq : q < 0)
    (h1 : (2:ℚ) ^ (e+23) ≤ -q) (h2 : -q < (2:ℚ) ^ (e+23+1))
    (hm : roundNearestEven (-q / 2 ^ e) = m) :
    round32 q = -((m : ℚ) * 2 ^ e) := by
  have hlog : Int.log 2 (-q) = e + 23 :=
    int_log2_eq (-q) (e+23) (neg_pos.mpr hq) h1 h2
  have he : e + 23 - 23 = e := by ring
  simp only [round32, abs_of_neg hq, hlog, if_neg hq.ne, if_pos hq]
  rw [he, hm]
  ring

theorem c001_eval : c001 = 5368709/536870912 := by
  have h := round32_eval_pos (1/100) (-30) 10737418 (by norm_num)
    (by norm_num) (by norm_num) ?_
  · rw [c001, h]; norm_num
  · have harg : ((1:ℚ)/100) / 2 ^ (-30:ℤ) = 268435456/25 := by norm_num
    rw [harg]
    exact roundNearestEven_floor_lt _ 10737418
      (by rw [Int.floor_eq_iff]; constructor <;> norm_num) (by norm_num)

theorem x1e8_eval : round32 (1/100000000) = 11258999/1125899906842624 := by
  have h := round32_eval_pos (1/100000000) (-50) 11258999 (by norm_num)
    (by norm_num) (by norm_num) ?_
  · rw [h]; norm_num
  · have harg : ((1:ℚ)/100000000) / 2 ^ (-50:ℤ)
        = 1125899906842624/100000000 := by norm_num
    rw [harg]
    exact roundNearestEven_floor_lt _ 11258999
      (by rw [Int.floor_eq_iff]; constructor <;> norm_num) (by norm_num)

theorem fsub32_x1e8_eval :
    fsub32 (11258999/1125899906842624) (5368709/536870912)
      = -(10737407/1073741824) := by
  have harg : (11258999/1125899906842624 : ℚ) - 5368709/536870912
      = -(11258987557769/1125899906842624) := by norm_num
  have h := round32_eval_neg (-(11258987557769/1125899906842624)) (-30) 10737407
    (by norm_num) (by norm_num) (by norm_num) ?_
  · rw [fsub32, harg, h]; norm_num
  · have harg2 : -(-(11258987557769/1125899906842624 : ℚ)) / 2 ^ (-30:ℤ)
        = 11258987557769/1048576 := by norm_num
    rw [harg2]
    exact roundNearestEven_floor_lt _ 10737407
      (by rw [Int.floor_eq_iff]; constructor <;> norm_num) (by norm_num)

theorem fadd32_residue_eval :
    fadd32 (-(10737407/1073741824)) (5368709/536870912) = 11/1073741824 := by
  have harg : (-(10737407/1073741824 : ℚ)) + 5368709/536870912
      = 11/1073741824 := by norm_num
  have h := round32_eval_pos (11/1073741824) (-50) 11534336 (by norm_num)
    (by norm_num) (by norm_num) ?_
  · rw [fadd32, harg, h]; norm_num
  · have harg2 : (11/1073741824 : ℚ) / 2 ^ (-50:ℤ) = ((11534336:ℤ):ℚ) := by
      norm_num
    rw [harg2]
    exact roundNearestEven_int 11534336

theorem fsub32_zero_c001 : fsub32 0 c001 = -c001 := by
  rw [c001_eval]
  have harg : (0:ℚ) - 5368709/536870912 = -(5368709/536870912) := by norm_num
  have h := round32_eval_neg (-(5368709/536870912)) (-30) 10737418
    (by norm_num) (by norm_num) (by norm_num) ?_
  · rw [fsub32, harg, h]; norm_num
  · have harg2 : -(-(5368709/536870912 : ℚ)) / 2 ^ (-30:ℤ)
        = ((10737418:ℤ):ℚ) := by norm_num
    rw [harg2]
    exact roundNearestEven_int 10737418

theorem fadd32_neg_c001 : fadd32 (-c001) c001 = 0 := by
  have harg : -c001 + c001 = (0:ℚ) := by ring
  rw [fadd32, harg, round32]
  simp

theorem frameInputX32_both_held (u d : Bool) (x : ℚ) :
    frameInputX32 ⟨true, true, u, d⟩ x = fadd32 (fsub32 x c001) c001 := rfl

/-- C1: for every pair of stage handles, every GL client state and every
driver behavior, linkProgram attaches both stages to the new program and
attempts the link (so in particular regardless of either stage's compile
status: its result does not depend on the compile oracle at all), passes
both stage handles to glDeleteShader after the link attempt whether the
link succeeded or failed, and returns the program handle
unconditionally. -/
theorem C1_linkProgram_unconditional (env : GLEnv) (vs fs : Nat)
    (st : GLState) :
    (linkProgram env vs fs st).1 = st.nextId ∧
    (st.nextId, vs) ∈ (linkProgram env vs fs st).2.attached ∧
    (st.nextId, fs) ∈ (linkProgram env vs fs st).2.attached ∧
    st.nextId ∈ (linkProgram env vs fs st).2.linked ∧
    vs ∈ (linkProgram env vs fs st).2.deletedShaders ∧
    fs ∈ (linkProgram env vs fs st).2.deletedShaders ∧
    ∀ cok sil,
      linkProgram { env with compileOk := cok, shaderInfoLog := sil } vs fs st
        = linkProgram env vs fs st := by
  unfold linkProgram
  by_cases h : env.linkOk vs fs <;> simp [h]

/-- C2: for every input source string (the empty string included) and
every driver, compileShader attempts compilation and returns the shader
handle unconditionally; exactly on compile failure it prints one
std::cerr line carrying the info log retrieved through a 512-byte buffer,
whose retrieved text is at most 511 characters, and on success it prints
nothing.  The call itself never fails. -/
theorem C2_compileShader_total (env : GLEnv) (source : String)
    (stype : ShaderType) (st : GLState) :
    (compileShader env source stype st).1 = st.nextId ∧
    (env.compileOk source stype = false →
      (compileShader env source stype st).2.log =
        ("Shader compilation failed:\n"
          ++ glInfoLogBuffer 512 (env.shaderInfoLog source stype)
          ++ "\n") :: st.log ∧
      (glInfoLogBuffer 512 (env.shaderInfoLog source stype)).length ≤ 511) ∧
    (env.compileOk source stype = true →
      (compileShader env source stype st).2.log = st.log) := by
  refine ⟨rfl, fun h => ⟨by simp [compileShader, h], ?_⟩,
    fun h => by simp [compileShader, h]⟩
  show ((env.shaderInfoLog source stype).take (512 - 1)).length ≤ 511
  rw [String.take_eq]
  exact List.length_take_le _ _

/-- Witness for C2 at the empty source string, with a driver that rejects
it: the handle comes back and the error line is printed. -/
theorem C2_compileShader_total_witness :
    (compileShader envReject "" ShaderType.vertex glStateZero).1 = 0 ∧
    (compileShader envReject "" ShaderType.vertex glStateZero).2.log =
      ["Shader compilation failed:\nbad\n"] := by
  have h := C2_compileShader_total envReject "" ShaderType.vertex glStateZero
  have hb : glInfoLogBuffer 512 (envReject.shaderInfoLog ""
      ShaderType.vertex) = "bad" := by
    show ("bad".take (512 - 1)) = "bad"
    rw [String.take_eq]
    norm_num [List.take_of_length_le]
  refine ⟨h.1, ?_⟩
  rw [(h.2.1 rfl).1, hb]
  rfl

/-- C3 counterexample: with only the right arrow held, one frame
iteration of the render loop advances xOffset by the fixed constant 0.01,
which differs from the speed-times-elapsedSeconds delta the claim
mandates already at base speed 1, elapsed 0.5 seconds, modifier not
held. -/
theorem C3_counterexample_fixed_delta :
    (frameInput ⟨false, true, false, false⟩ 0 0).1 = 1/100 ∧
    specOffsetDelta 1 (1/2) false = 1/2 ∧
    (1 : ℚ)/100 ≠ 1/2 := by
  refine ⟨by norm_num [frameInput], by norm_num [specOffsetDelta], by norm_num⟩

/-- C3 amended: in every frame iteration, each held directional key
advances its offset axis by the fixed per-iteration constant 0.01 (right
and up add, left and down subtract), with no dependence on elapsed time,
no speed modifier and no pause state. -/
theorem C3_fixed_per_frame_delta (k : Keys) (x y : ℚ) :
    (frameInput k x y).1
      = x + (if k.right then 1/100 else 0) - (if k.left then 1/100 else 0) ∧
    (frameInput k x y).2
      = y + (if k.up then 1/100 else 0) - (if k.down then 1/100 else 0) := by
  rcases k with ⟨l, r, u, d⟩
  cases l <;> cases r <;> cases u <;> cases d <;>
    refine ⟨?_, ?_⟩ <;> simp [frameInput]

/-- C4: the offset variables of main are declared without an initializer
(float xOffset, yOffset; at line 250), so before the first loop iteration
their value is indeterminate, not zero, and the first uniform upload does
not send a known zero offset; no paused or scaleUp variable exists in the
code at all. -/
theorem C4_offsets_uninitialized :
    mainLoopVarsInit.xOffset = none ∧ mainLoopVarsInit.yOffset = none ∧
    mainLoopVarsInit.xOffset ≠ some 0 ∧ mainLoopVarsInit.yOffset ≠ some 0 := by
  refine ⟨rfl, rfl, by simp [mainLoopVarsInit], by simp [mainLoopVarsInit]⟩

/-- C5 counterexample: the index buffer EBO is created during setup, yet
no call in the shutdown sequence deletes it, so not every GPU resource
created during setup is released. -/
theorem C5_counterexample_ebo_leaked :
    GLCmd.genBuffers GLName.ebo ∈ setupTrace ∧
    GLCmd.deleteBuffers GLName.ebo ∉ cleanupTrace := by
  exact ⟨by decide, by decide⟩

/-- C5 amended: on loop exit the vertex buffer, the attribute-layout
descriptor (vertex array) and the linked program are explicitly released,
but the index buffer is not. -/
theorem C5_cleanup_releases_vbo_vao_program :
    GLCmd.deleteBuffers GLName.vbo ∈ cleanupTrace ∧
    GLCmd.deleteVertexArrays GLName.vao ∈ cleanupTrace ∧
    GLCmd.deleteProgram GLName.shaderProgram ∈ cleanupTrace ∧
    GLCmd.deleteBuffers GLName.ebo ∉ cleanupTrace := by
  exact ⟨by decide, by decide, by decide, by decide⟩

/-- C6: the composer applies translation, then rotation about Z, then,
only when scaleUp is set, the 1.5 scale; compose 0 0 0 false is exactly
the identity matrix, and compose 0 0 (pi/2) false maps the point (1, 0)
to (0, 1) within tolerance 1e-5. -/
theorem C6_compose_order_and_samples :
    (∀ ox oy t, compose ox oy t false = rotationZM t * translationM ox oy) ∧
    (∀ ox oy t, compose ox oy t true
      = scaleM * (rotationZM t * translationM ox oy)) ∧
    compose 0 0 0 false = 1 ∧
    |(applyPoint (compose 0 0 (Real.pi / 2) false) 1 0).1 - 0| ≤ 1/100000 ∧
    |(applyPoint (compose 0 0 (Real.pi / 2) false) 1 0).2 - 1| ≤ 1/100000 := by
  have hf : ∀ ox oy t, compose ox oy t false
      = rotationZM t * translationM ox oy := by
    intro ox oy t
    simp [compose]
  have ht : ∀ ox oy t, compose ox oy t true
      = scaleM * (rotationZM t * translationM ox oy) := by
    intro ox oy t
    simp [compose]
  refine ⟨hf, ht, ?_, ?_, ?_⟩
  · rw [hf, rotationZM_zero, translationM_zero, one_mul]
  · rw [hf, translationM_zero, mul_one]
    simp [applyPoint, rotationZM, Matrix.vecHead, Matrix.vecTail,
      Real.cos_pi_div_two, Real.sin_pi_div_two]
  · rw [hf, translationM_zero, mul_one]
    simp [applyPoint, rotationZM, Matrix.vecHead, Matrix.vecTail,
      Real.cos_pi_div_two, Real.sin_pi_div_two]

/-- C7: in the geometry-setup sequence of main, the vertex array is bound
before any buffer is generated, the vertex buffer is uploaded before the
index buffer is generated, the attribute layout is declared only after
both uploads, attribute slot 0 is enabled last of all, and every buffer
upload carries the GL_STATIC_DRAW usage hint. -/
theorem C7_setup_order :
    setupTrace.indexOf (GLCmd.bindVertexArray GLName.vao)
      < setupTrace.indexOf (GLCmd.genBuffers GLName.vbo) ∧
    setupTrace.indexOf (GLCmd.bufferData BufTarget.arrayBuffer BufUsage.staticDraw)
      < setupTrace.indexOf (GLCmd.genBuffers GLName.ebo) ∧
    setupTrace.indexOf (GLCmd.bufferData BufTarget.elementArrayBuffer BufUsage.staticDraw)
      < setupTrace.indexOf (GLCmd.vertexAttribPointer 0 2 8 0) ∧
    setupTrace.indexOf (GLCmd.vertexAttribPointer 0 2 8 0)
      < setupTrace.indexOf (GLCmd.enableVertexAttribArray 0) ∧
    GLCmd.bindVertexArray GLName.vao ∈ setupTrace ∧
    GLCmd.bufferData BufTarget.arrayBuffer BufUsage.staticDraw ∈ setupTrace ∧
    GLCmd.bufferData BufTarget.elementArrayBuffer BufUsage.staticDraw ∈ setupTrace ∧
    GLCmd.vertexAttribPointer 0 2 8 0 ∈ setupTrace ∧
    setupTrace.getLast? = some (GLCmd.enableVertexAttribArray 0) ∧
    setupTrace.all staticUploadOnly = true := by
  decide

/-- C8 counterexample: at xOffset equal to the single-precision value of
1e-8 (11258999 * 2^-50), one frame iteration with both left and right
held computes (xOffset - 0.01f) + 0.01f = 11 * 2^-30 in binary32
arithmetic, which differs from xOffset: the two opposing deltas do not
cancel exactly in the float arithmetic the source uses. -/
theorem C8_counterexample_inexact_cancellation :
    frameInputX32 ⟨true, true, false, false⟩ (round32 (1/100000000))
      ≠ round32 (1/100000000) := by
  rw [x1e8_eval, frameInputX32_both_held, c001_eval, fsub32_x1e8_eval,
    fadd32_residue_eval]
  norm_num

/-- C8 amended: in any single frame iteration in which both left and
right are held, the two opposing deltas are applied additively, the loop
computing (xOffset - 0.01f) + 0.01f in single precision; starting from
xOffset = 0 this leaves xOffset exactly unchanged, though the
cancellation is not exact for every representable xOffset value. -/
theorem C8_deltas_additive_cancel_at_zero (u d : Bool) :
    (∀ x : ℚ, frameInputX32 ⟨true, true, u, d⟩ x
      = fadd32 (fsub32 x c001) c001) ∧
    frameInputX32 ⟨true, true, u, d⟩ 0 = 0 := by
  refine ⟨frameInputX32_both_held u d, ?_⟩
  rw [frameInputX32_both_held, fsub32_zero_c001, fadd32_neg_c001]

/-- C9: the shader source loader returns the file's full content when the
file opens, and returns exactly the empty string together with one logged
error line when it does not; the empty string is then accepted by
compileShader, which still returns a handle for it (the call is total and
cannot crash). -/
theorem C9_loadShaderSource_spec (fs : String → Option String) (p : String) :
    (∀ c, fs p = some c → loadShaderSource fs p = (c, [])) ∧
    (fs p = none →
      loadShaderSource fs p =
        ("", ["Failed to open shader file: " ++ p ++ ". Load aborting...\n"])) ∧
    (∀ env stype st, (compileShader env "" stype st).1 = st.nextId) := by
  refine ⟨fun c hc => ?_, fun h => ?_, fun env stype st => rfl⟩
  · simp [loadShaderSource, hc]
  · simp [loadShaderSource, h]

/-- Witness for C9: a filesystem with no readable file makes the loader
return the empty string and the error line for the vertex shader path; a
filesystem holding that file makes it return the content; and
compileShader on the empty string still hands back a shader handle. -/
theorem C9_loadShaderSource_spec_witness :
    loadShaderSource (fun _ => none) ("shaders/vertex.glsl") =
      ("", ["Failed to open shader file: shaders/vertex.glsl. Load aborting...\n"]) ∧
    loadShaderSource (fun _ => some ("void main(){}")) ("shaders/vertex.glsl") =
      ("void main(){}", []) ∧
    (compileShader envReject "" ShaderType.vertex glStateZero).1 = 0 := by
  refine ⟨?_, ?_, ?_⟩
  · rw [(C9_loadShaderSource_spec (fun _ => none) ("shaders/vertex.glsl")).2.1 rfl]
    rfl
  · exact (C9_loadShaderSource_spec (fun _ => some ("void main(){}"))
      ("shaders/vertex.glsl")).1 ("void main(){}") rfl
  · exact (C9_loadShaderSource_spec (fun _ => none) ("shaders/vertex.glsl")).2.2
      envReject ShaderType.vertex glStateZero

/-- C10: a std::cerr line is emitted exactly when the corresponding GPU
status query reports failure: compileShader changes the error channel iff
GL_COMPILE_STATUS is false, and linkProgram changes it iff GL_LINK_STATUS
is false; on success neither function writes to it. -/
theorem C10_log_iff_failure (env : GLEnv) (source : String)
    (stype : ShaderType) (vs fs : Nat) (st st' : GLState) :
    ((compileShader env source stype st).2.log ≠ st.log
      ↔ env.compileOk source stype = false) ∧
    ((linkProgram env vs fs st').2.log ≠ st'.log
      ↔ env.linkOk vs fs = false) := by
  constructor
  · by_cases h : env.compileOk source stype <;> simp [compileShader, h]
  · by_cases h : env.linkOk vs fs <;> simp [linkProgram, h]
